import Mathlib

/-!
Shallow embedding of the Layer-3 forwarding engine of `fishnode.c` /
`fishnode.h` (the `L3_IMPL` section): the duplicate-suppression hash
table (`hash_function`, `insert_entry`, `get_timestamp`), the receive
classifier `my_fishnode_l3_receive` and the forwarding routine
`my_fish_l3_forward`, together with the wire layout of `struct L3_hdr`.

Modelling conventions:
- `fnaddr_t` (a `uint32_t`) and the other machine integers are `Nat`,
  with `% 2^w` written explicitly where the C performs an implicit
  narrowing conversion (the `uint16_t packet_id` parameters of
  `insert_entry` / `get_timestamp`).
- `time_t` values and the C `int len` parameter are `Int` (`len -
  sizeof(struct L3_hdr)` can go negative and `time_t` arithmetic is
  signed); `time(NULL)` is passed in as an explicit `now` argument.
- The external libfish primitives `fish_l4.fish_l4_receive`,
  `fish_l2.fish_l2_send` and `fish_fcmp.send_fcmp_response` are modelled
  as emitted `Effect`s; `fish_fwd.longest_prefix_match` (the libfish
  built-in routing table, not overridden in `main`) is an oracle
  `lpm : Nat → Nat` returning the no-route sentinel `0` on miss;
  `fish_getaddress()` is the explicit `node_addr` / `my_addr` argument.
- The frame buffer is a `Frame`: the header fields the C code reads
  through the `struct L3_hdr *` cast, plus the bytes following the
  header.  The C receive path never inspects the `len` parameter before
  using the header fields, so a "short" frame is a `Frame` paired with a
  `len` smaller than the header size.
-/

/-- `#define ENTRY_TTL_SECONDS 120` (fishnode.c line 8). -/
def ENTRY_TTL_SECONDS : Int := 120

/-- `#define HASH_TABLE_SIZE 1024` (fishnode.h line 36). -/
def HASH_TABLE_SIZE : Nat := 1024

/-- `#define ALL_NEIGHBORS htonl(0xFFFFFFFF)` (fish.h line 70); all-ones is
byte-order invariant. -/
def ALL_NEIGHBORS : Nat := 4294967295

/-- `struct L3_hdr` (fishnode.h lines 27-33), `__attribute__((packed))`:
`uint8_t ttl; uint8_t protocol; uint32_t packet_id; fnaddr_t src;
fnaddr_t dst;` with `fnaddr_t = uint32_t` (fish.h line 36). -/
structure L3_hdr where
  ttl : Nat
  protocol : Nat
  packet_id : Nat
  src : Nat
  dst : Nat

/-- `sizeof(struct L3_hdr)` for the packed struct: 1 + 1 + 4 + 4 + 4. -/
def L3_hdr_size : Nat := 1 + 1 + 4 + 4 + 4

/-- Big-endian (network byte order) serialization of a `w`-byte unsigned
integer, most significant byte first. -/
def serializeNat : Nat → Nat → List Nat
  | 0, _ => []
  | w + 1, v => (v / 256 ^ w) % 256 :: serializeNat w v

/-- Recombines big-endian bytes into the integer they encode. -/
def deserializeNat (bs : List Nat) : Nat :=
  bs.foldl (fun a b => a * 256 + b) 0

/-- Byte image of the packed `struct L3_hdr` in declaration order:
`ttl` (1 byte), `protocol` (1 byte), `packet_id` (4 bytes), `src`
(4 bytes), `dst` (4 bytes). -/
def L3_hdr.serialize (h : L3_hdr) : List Nat :=
  serializeNat 1 h.ttl ++ serializeNat 1 h.protocol ++
    serializeNat 4 h.packet_id ++ serializeNat 4 h.src ++
    serializeNat 4 h.dst

/-- An inbound L3 frame: the header fields visible through the
`struct L3_hdr *` cast, plus the bytes following the header (the L4
frame the code passes upward by pointer). -/
structure Frame where
  hdr : L3_hdr
  payload : List Nat

/-- `typedef struct HashEntry` (fishnode.h lines 38-43): `fnaddr_t src;
uint16_t packet_id; time_t timestamp;` (the `next` pointer becomes list
structure). -/
structure HashEntry where
  src : Nat
  packet_id : Nat
  timestamp : Int

/-- `HashEntry* hash_table[HASH_TABLE_SIZE]` (fishnode.c line 100): a
bucket array of collision chains, indexed by `hash_function`. -/
def HashTable : Type := Nat → List HashEntry

/-- The initial, all-NULL hash table. -/
def emptyTable : HashTable := fun _ => []

/-- `hash_function` (fishnode.c lines 103-105):
`return (src ^ packet_id) % HASH_TABLE_SIZE;`. -/
def hash_function (src packet_id : Nat) : Nat :=
  (src ^^^ packet_id) % HASH_TABLE_SIZE

/-- The chain scan inside `insert_entry` (fishnode.c lines 124-141):
replace, in place, the first entry whose `(src, packet_id)` matches the
new entry; `none` when no entry matches. -/
def replaceFirst (e : HashEntry) : List HashEntry → Option (List HashEntry)
  | [] => none
  | c :: rest =>
    if c.src = e.src ∧ c.packet_id = e.packet_id then
      some (e :: rest)
    else
      match replaceFirst e rest with
      | some rest' => some (c :: rest')
      | none => none

/-- The bucket update performed by `insert_entry` (fishnode.c lines
120-146): an empty bucket receives the new entry alone; otherwise the
chain is scanned for a same-key entry to replace in place, and when none
matches the new entry is prepended to the chain. -/
def insertChain (e : HashEntry) (chain : List HashEntry) : List HashEntry :=
  match chain with
  | [] => [e]
  | _ =>
    match replaceFirst e chain with
    | some chain' => chain'
    | none => e :: chain

/-- `insert_entry(fnaddr_t src, uint16_t packet_id)` (fishnode.c lines
108-147).  The `uint16_t` parameter narrows the caller's 32-bit packet
id modulo 2^16; the stored timestamp is `time(NULL)`, passed here as
`now`. -/
def insert_entry (t : HashTable) (now : Int) (src pid : Nat) : HashTable :=
  let packet_id := pid % 65536
  let index := hash_function src packet_id
  let new_entry : HashEntry := ⟨src, packet_id, now⟩
  fun i => if i = index then insertChain new_entry (t index) else t i

/-- The chain scan inside `get_timestamp` (fishnode.c lines 153-164):
first matching entry wins; a matching entry older than
`ENTRY_TTL_SECONDS` yields `-1` (expired), and `-1` is also the
not-found result. -/
def chainLookup (now : Int) (src packet_id : Nat) : List HashEntry → Int
  | [] => -1
  | c :: rest =>
    if c.src = src ∧ c.packet_id = packet_id then
      if now - c.timestamp > ENTRY_TTL_SECONDS then -1 else c.timestamp
    else chainLookup now src packet_id rest

/-- `get_timestamp(fnaddr_t src, uint16_t packet_id)` (fishnode.c lines
150-167).  The `uint16_t` parameter narrows the caller's 32-bit packet
id modulo 2^16; `time(NULL)` is the explicit `now`. -/
def get_timestamp (t : HashTable) (now : Int) (src pid : Nat) : Int :=
  let packet_id := pid % 65536
  chainLookup now src packet_id (t (hash_function src packet_id))

/-- Calls the receive/forward path makes into external libfish
primitives, in program order: `fish_l4.fish_l4_receive(l4frame, l4len,
protocol, src)`, `fish_l2.fish_l2_send(l3frame, next_hop, len,
l2_proto)`, and `fish_fcmp.send_fcmp_response(l3frame, len, err)` (the
frame handed to it carries the source the response is routed back to). -/
inductive Effect where
  | deliverUp (l4frame : List Nat) (l4len : Int) (protocol : Nat) (src : Nat)
  | l2send (hdr : L3_hdr) (next_hop : Nat) (len : Int) (l2_proto : Nat)
  | fcmp (hdr : L3_hdr) (len : Int) (err : Nat)

/-- `my_fish_l3_forward` (fishnode.c lines 233-262).  `lpm` is
`fish_fwd.longest_prefix_match` (libfish's routing table; `0` is the
no-route sentinel), `my_addr` is `fish_getaddress()`.  Returns the
effects emitted; the frame buffer is not written. -/
def my_fish_l3_forward (my_addr : Nat) (lpm : Nat → Nat)
    (f : Frame) (len : Int) : List Effect :=
  let dest_addr := f.hdr.dst
  if f.hdr.ttl = 0 ∧ dest_addr ≠ my_addr then
    [Effect.fcmp f.hdr len 1]
  else
    let next_hop0 := lpm dest_addr
    let next_hop1 := if dest_addr = ALL_NEIGHBORS then ALL_NEIGHBORS else next_hop0
    let next_hop := if dest_addr = my_addr then my_addr else next_hop1
    if next_hop = 0 then
      [Effect.fcmp f.hdr len 2]
    else
      [Effect.l2send f.hdr next_hop len 1]

/-- `my_fishnode_l3_receive` (fishnode.c lines 170-201).  `node_addr` is
`fish_getaddress()`; `now` is `time(NULL)` as read by the hash-table
helpers; the result is the frame buffer after the callback returns
(the code writes only `header->ttl`), the updated duplicate-suppression
table, and the effects in program order.  `fish_l3.fish_l3_forward` is
the overridden `my_fish_l3_forward`.  The C function's `protocol`
parameter is unused (the header's own field is delivered upward), and
`len` is never compared against the header size before use. -/
def my_fishnode_l3_receive (node_addr : Nat) (lpm : Nat → Nat)
    (t : HashTable) (now : Int) (f : Frame) (len : Int) :
    Frame × HashTable × List Effect :=
  let dest_addr := f.hdr.dst
  if dest_addr = node_addr then
    (f, t, [Effect.deliverUp f.payload (len - (L3_hdr_size : Int))
              f.hdr.protocol f.hdr.src])
  else if dest_addr = ALL_NEIGHBORS then
    let timestamp := get_timestamp t now f.hdr.src f.hdr.packet_id
    if timestamp ≠ -1 then
      let t' := insert_entry t now f.hdr.src f.hdr.packet_id
      if f.hdr.ttl > 1 then
        let f' : Frame := { f with hdr := { f.hdr with ttl := f.hdr.ttl - 1 } }
        (f', t',
          Effect.deliverUp f'.payload (len - (L3_hdr_size : Int))
              f'.hdr.protocol f'.hdr.src ::
            my_fish_l3_forward node_addr lpm f' len)
      else (f, t', [])
    else (f, t, [])
  else
    if f.hdr.ttl > 1 then
      let f' : Frame := { f with hdr := { f.hdr with ttl := f.hdr.ttl - 1 } }
      (f', t, my_fish_l3_forward node_addr lpm f' len)
    else (f, t, [])

/-- A routing oracle with an empty table: every lookup misses (returns
the no-route sentinel `0`). -/
def lpm0 : Nat → Nat := fun _ => 0

/-- A first-seen broadcast frame: `dst = ALL_NEIGHBORS`, source 1,
packet id 7, ttl 5, protocol 2, two payload bytes. -/
def freshBroadcast : Frame := ⟨⟨5, 2, 7, 1, ALL_NEIGHBORS⟩, [9, 9]⟩

/-- A unicast frame for another node (dst 7, node address 5) with
`ttl == 0`. -/
def ttl0Unicast : Frame := ⟨⟨0, 2, 7, 1, 7⟩, [9]⟩

/-- A frame whose header bytes decode `dst = 5` (the node's own
address), received with `len = 5`, shorter than the 14-byte header. -/
def shortFrame : Frame := ⟨⟨5, 2, 7, 1, 5⟩, []⟩

/-- A unicast frame for node 9 with ttl 3, used to instantiate the
no-route theorem. -/
def unroutedFrame : Frame := ⟨⟨3, 2, 7, 1, 9⟩, [8]⟩

/-- C1.  Claim: a broadcast whose `(source, packet_id)` is fresh is
delivered upward exactly once and re-flooded (ttl 5 > 1).  The code does
the opposite: processing is gated on `get_timestamp(...) != -1`, which
fails for every fresh pair, so a first-seen broadcast produces no upward
delivery, no re-flood, and no cache insertion — evaluated here at a
fresh broadcast against an empty duplicate-suppression table. -/
theorem C1_fresh_broadcast_dropped :
    (my_fishnode_l3_receive 5 lpm0 emptyTable 1000 freshBroadcast 16).2.2 = [] :=
  rfl

/-- C3.  Claim: a received unicast for a non-self, non-broadcast
destination with `ttl == 0` yields no forward and exactly one
TTL-exceeded control packet.  The receive path only acts when
`header->ttl > 1`, so a ttl-0 unicast is dropped with no effects at all;
the TTL-exceeded branch of `my_fish_l3_forward` is unreachable from the
receive path. -/
theorem C3_ttl0_unicast_silent_drop :
    (my_fishnode_l3_receive 5 lpm0 emptyTable 1000 ttl0Unicast 15).2.2 = [] :=
  rfl

/-- C5.  Claim: a frame shorter than the fixed header is dropped with no
upward delivery.  The code never compares `len` against the header size:
a 5-byte frame whose header bytes decode a self destination is delivered
upward with the negative payload length `5 - 14 = -9`. -/
theorem C5_short_frame_delivered :
    (my_fishnode_l3_receive 5 lpm0 emptyTable 1000 shortFrame 5).2.2 =
      [Effect.deliverUp [] (-9) 2 1] :=
  rfl

/-- C4.  A packet reaching the routing lookup in `my_fish_l3_forward`
(destination neither self nor broadcast, ttl not 0) whose destination no
routing-table entry covers (`longest_prefix_match` returns the no-route
sentinel 0) triggers no link-layer send and exactly one no-route control
packet (error code 2) carrying the original header back toward its
source. -/
theorem C4_noroute_fcmp (my_addr : Nat) (lpm : Nat → Nat) (f : Frame)
    (len : Int) (hself : f.hdr.dst ≠ my_addr) (hbc : f.hdr.dst ≠ ALL_NEIGHBORS)
    (httl : f.hdr.ttl ≠ 0) (hroute : lpm f.hdr.dst = 0) :
    my_fish_l3_forward my_addr lpm f len = [Effect.fcmp f.hdr len 2] := by
  simp [my_fish_l3_forward, hself, hbc, httl, hroute]

/-- Witness for C4 at a concrete frame and the empty routing table. -/
theorem C4_noroute_fcmp_witness :
    unroutedFrame.hdr.dst ≠ 5 ∧ unroutedFrame.hdr.dst ≠ ALL_NEIGHBORS ∧
      unroutedFrame.hdr.ttl ≠ 0 ∧ lpm0 unroutedFrame.hdr.dst = 0 ∧
      my_fish_l3_forward 5 lpm0 unroutedFrame 15 =
        [Effect.fcmp unroutedFrame.hdr 15 2] :=
  ⟨by decide, by decide, by decide, rfl,
    C4_noroute_fcmp 5 lpm0 unroutedFrame 15 (by decide) (by decide)
      (by decide) rfl⟩

/-- C6 counterexample.  An entry cached at time 100 and looked up at
time 220 is exactly 120 seconds old; the claim says the lookup returns
"not found" (-1), but `get_timestamp` expires only when the age is
STRICTLY greater than `ENTRY_TTL_SECONDS`, so it returns the stored
timestamp 100. -/
theorem C6_exactly120_is_hit :
    get_timestamp (insert_entry emptyTable 100 1 7) 220 1 7 ≠ -1 := by
  decide

/-- C6 amended.  A duplicate-suppression entry is treated as absent iff
it is strictly older than 120 seconds; an entry exactly 120 seconds old
is still returned as a hit. -/
theorem C6_expiry_strictly_after_120 (src pid : Nat) (ts now : Int) :
    get_timestamp (insert_entry emptyTable ts src pid) now src pid =
      if now - ts > ENTRY_TTL_SECONDS then -1 else ts := by
  simp [get_timestamp, insert_entry, emptyTable, insertChain, chainLookup]

/-- C7 counterexample.  A frame destined to the node's own address
(node address 5, destination 5, ttl 3): the claim says the forwarding
operation never invokes the link-send primitive for such a frame, but
`my_fish_l3_forward` rewrites the next hop to the self address and calls
`fish_l2_send` with it. -/
theorem C7_self_dest_l2send :
    my_fish_l3_forward 5 lpm0 ⟨⟨3, 2, 7, 1, 5⟩, [9]⟩ 15 =
      [Effect.l2send ⟨3, 2, 7, 1, 5⟩ 5 15 1] :=
  rfl

/-- C7 amended.  A frame whose destination equals the node's own address
is passed to the link-send primitive with next hop equal to the self
address (loopback delivery), bypassing the TTL check and the routing
lookup result — except when the self address equals the no-route
sentinel 0, in which case a no-route control packet is generated
instead. -/
theorem C7_self_dest_loopback (my_addr : Nat) (lpm : Nat → Nat) (f : Frame)
    (len : Int) (hd : f.hdr.dst = my_addr) :
    my_fish_l3_forward my_addr lpm f len =
      if my_addr = 0 then [Effect.fcmp f.hdr len 2]
      else [Effect.l2send f.hdr my_addr len 1] := by
  simp [my_fish_l3_forward, hd]

/-- Witness for the amended C7 at a concrete self-destined frame. -/
theorem C7_self_dest_loopback_witness :
    (Frame.hdr ⟨⟨3, 2, 7, 1, 5⟩, [9]⟩).dst = 5 ∧
      my_fish_l3_forward 5 lpm0 ⟨⟨3, 2, 7, 1, 5⟩, [9]⟩ 15 =
        (if (5 : Nat) = 0 then [Effect.fcmp ⟨3, 2, 7, 1, 5⟩ 15 2]
         else [Effect.l2send ⟨3, 2, 7, 1, 5⟩ 5 15 1]) :=
  ⟨rfl, C7_self_dest_loopback 5 lpm0 ⟨⟨3, 2, 7, 1, 5⟩, [9]⟩ 15 rfl⟩

/-- Case analysis on the frame buffer left behind by
`my_fishnode_l3_receive`: every branch either leaves the frame untouched
or writes only the decremented ttl into its header. -/
lemma receive_frame_cases (node_addr : Nat) (lpm : Nat → Nat)
    (t : HashTable) (now : Int) (f : Frame) (len : Int) :
    (my_fishnode_l3_receive node_addr lpm t now f len).1 = f ∨
      (my_fishnode_l3_receive node_addr lpm t now f len).1 =
        { f with hdr := { f.hdr with ttl := f.hdr.ttl - 1 } } := by
  by_cases h1 : f.hdr.dst = node_addr
  · exact Or.inl (by simp [my_fishnode_l3_receive, h1])
  · by_cases h2 : f.hdr.dst = ALL_NEIGHBORS
    · have h1' : ALL_NEIGHBORS ≠ node_addr := h2 ▸ h1
      by_cases h3 : get_timestamp t now f.hdr.src f.hdr.packet_id = -1
      · exact Or.inl (by simp [my_fishnode_l3_receive, h1, h1', h2, h3])
      · by_cases h4 : f.hdr.ttl > 1
        · exact Or.inr (by simp [my_fishnode_l3_receive, h1, h1', h2, h3, h4])
        · exact Or.inl (by simp [my_fishnode_l3_receive, h1, h1', h2, h3, h4])
    · by_cases h4 : f.hdr.ttl > 1
      · exact Or.inr (by simp [my_fishnode_l3_receive, h1, h2, h4])
      · exact Or.inl (by simp [my_fishnode_l3_receive, h1, h2, h4])

/-- C8.  The receive/forward path mutates no part of the inbound frame
buffer except the ttl header field: whatever branch
`my_fishnode_l3_receive` takes, the frame it leaves behind agrees with
the input frame on `protocol`, `packet_id`, `src`, `dst` and the entire
payload (only `ttl` may have changed), and `my_fish_l3_forward` writes
nothing at all (it only emits sends). -/
theorem C8_frame_unchanged_except_ttl (node_addr : Nat) (lpm : Nat → Nat)
    (t : HashTable) (now : Int) (f : Frame) (len : Int) :
    ((my_fishnode_l3_receive node_addr lpm t now f len).1.hdr.protocol =
        f.hdr.protocol ∧
      (my_fishnode_l3_receive node_addr lpm t now f len).1.hdr.packet_id =
        f.hdr.packet_id ∧
      (my_fishnode_l3_receive node_addr lpm t now f len).1.hdr.src =
        f.hdr.src ∧
      (my_fishnode_l3_receive node_addr lpm t now f len).1.hdr.dst =
        f.hdr.dst) ∧
      (my_fishnode_l3_receive node_addr lpm t now f len).1.payload =
        f.payload := by
  rcases receive_frame_cases node_addr lpm t now f len with h | h <;> rw [h] <;>
    exact ⟨⟨rfl, rfl, rfl, rfl⟩, rfl⟩

/-- One-byte serialization is the low byte. -/
lemma serializeNat_one (v : Nat) : serializeNat 1 v = [v % 256] := by
  norm_num [serializeNat]

/-- Four-byte big-endian serialization, spelled out. -/
lemma serializeNat_four (v : Nat) :
    serializeNat 4 v =
      [v / 16777216 % 256, v / 65536 % 256, v / 256 % 256, v % 256] := by
  norm_num [serializeNat]

/-- Recombination of four big-endian bytes, spelled out. -/
lemma deserializeNat_four (a b c d : Nat) :
    deserializeNat [a, b, c, d] = ((a * 256 + b) * 256 + c) * 256 + d := by
  simp [deserializeNat]

/-- C9 counterexample.  The packed `struct L3_hdr` serializes to 14
bytes (1 + 1 + 4 + 4 + 4, with `fnaddr_t = uint32_t`), not the 10 bytes
the claim states — shown at a concrete header. -/
theorem C9_header_not_10_bytes :
    (L3_hdr.serialize ⟨64, 1, 2, 3, 4⟩).length ≠ 10 := by
  simp [L3_hdr.serialize, serializeNat_one, serializeNat_four]

/-- C9 amended.  The fixed network-layer header occupies exactly 14
bytes preceding the payload, laid out in order as ttl (1 byte at offset
0), protocol (1 byte at offset 1), packet_id (4 bytes at offset 2),
source (4 bytes at offset 6), destination (4 bytes at offset 10), each
multi-byte field in network byte order. -/
theorem C9_header_layout_14_bytes (h : L3_hdr) (ht : h.ttl < 256)
    (hp : h.protocol < 256) (hid : h.packet_id < 4294967296)
    (hs : h.src < 4294967296) (hd : h.dst < 4294967296) :
    (L3_hdr.serialize h).length = L3_hdr_size ∧
      (L3_hdr.serialize h).take 1 = [h.ttl] ∧
      ((L3_hdr.serialize h).drop 1).take 1 = [h.protocol] ∧
      deserializeNat (((L3_hdr.serialize h).drop 2).take 4) = h.packet_id ∧
      deserializeNat (((L3_hdr.serialize h).drop 6).take 4) = h.src ∧
      deserializeNat (((L3_hdr.serialize h).drop 10).take 4) = h.dst := by
  have e : L3_hdr.serialize h =
      [h.ttl % 256, h.protocol % 256,
       h.packet_id / 16777216 % 256, h.packet_id / 65536 % 256,
       h.packet_id / 256 % 256, h.packet_id % 256,
       h.src / 16777216 % 256, h.src / 65536 % 256,
       h.src / 256 % 256, h.src % 256,
       h.dst / 16777216 % 256, h.dst / 65536 % 256,
       h.dst / 256 % 256, h.dst % 256] := by
    simp [L3_hdr.serialize, serializeNat_one, serializeNat_four]
  rw [e]
  refine ⟨rfl, ?_, ?_, ?_, ?_, ?_⟩
  · simp [Nat.mod_eq_of_lt ht]
  · simp [Nat.mod_eq_of_lt hp]
  · simp only [List.drop_succ_cons, List.drop_zero, List.take_succ_cons,
      List.take_zero, deserializeNat_four]
    omega
  · simp only [List.drop_succ_cons, List.drop_zero, List.take_succ_cons,
      List.take_zero, deserializeNat_four]
    omega
  · simp only [List.drop_succ_cons, List.drop_zero, List.take_succ_cons,
      List.take_zero, deserializeNat_four]
    omega

/-- Witness for the amended C9 at a concrete in-range header. -/
theorem C9_header_layout_14_bytes_witness :
    ((64 : Nat) < 256 ∧ (1 : Nat) < 256 ∧ (2 : Nat) < 4294967296 ∧
        (3 : Nat) < 4294967296 ∧ (4 : Nat) < 4294967296) ∧
      ((L3_hdr.serialize ⟨64, 1, 2, 3, 4⟩).length = L3_hdr_size ∧
        (L3_hdr.serialize ⟨64, 1, 2, 3, 4⟩).take 1 = [(⟨64, 1, 2, 3, 4⟩ : L3_hdr).ttl] ∧
        ((L3_hdr.serialize ⟨64, 1, 2, 3, 4⟩).drop 1).take 1 =
          [(⟨64, 1, 2, 3, 4⟩ : L3_hdr).protocol] ∧
        deserializeNat (((L3_hdr.serialize ⟨64, 1, 2, 3, 4⟩).drop 2).take 4) =
          (⟨64, 1, 2, 3, 4⟩ : L3_hdr).packet_id ∧
        deserializeNat (((L3_hdr.serialize ⟨64, 1, 2, 3, 4⟩).drop 6).take 4) =
          (⟨64, 1, 2, 3, 4⟩ : L3_hdr).src ∧
        deserializeNat (((L3_hdr.serialize ⟨64, 1, 2, 3, 4⟩).drop 10).take 4) =
          (⟨64, 1, 2, 3, 4⟩ : L3_hdr).dst) :=
  ⟨⟨by decide, by decide, by decide, by decide, by decide⟩,
    C9_header_layout_14_bytes ⟨64, 1, 2, 3, 4⟩ (by decide) (by decide)
      (by decide) (by decide) (by decide)⟩

/-- C10.  The duplicate-suppression cache identifies packets by
`(source, packet_id mod 2^16)`: both `insert_entry` and `get_timestamp`
take the packet id through a `uint16_t` parameter, so any two 32-bit
packet ids congruent modulo 65536 give identical lookup results and
identical table updates for every table state. -/
theorem C10_dedup_keyed_mod_65536 (t : HashTable) (now : Int)
    (src pid1 pid2 : Nat) (h : pid1 % 65536 = pid2 % 65536) :
    get_timestamp t now src pid1 = get_timestamp t now src pid2 ∧
      insert_entry t now src pid1 = insert_entry t now src pid2 := by
  constructor
  · simp only [get_timestamp, h]
  · simp only [insert_entry, h]

/-- Witness for C10 at packet ids 3 and 65539 = 3 + 2^16. -/
theorem C10_dedup_keyed_mod_65536_witness :
    (3 % 65536 = 65539 % 65536) ∧
      (get_timestamp emptyTable 0 1 3 = get_timestamp emptyTable 0 1 65539 ∧
        insert_entry emptyTable 0 1 3 = insert_entry emptyTable 0 1 65539) :=
  ⟨by decide, C10_dedup_keyed_mod_65536 emptyTable 0 1 3 65539 (by decide)⟩
